import Mathlib

/-!
# Verification of the alpenhorn-chime classification and metadata layer

A shallow embedding of the CHIME import-detection, metadata-extraction and
catalog-seeding code (`alpenhorn_chime.detection`, `alpenhorn_chime.info.*`,
`alpenhorn_chime.reserving`, `alpenhorn_chime.util`):

* Python dicts over string keys are association lists looked up at the first
  occurrence of a key; `dict | dict` merge is `dictMerge`.
* CPython `datetime.strptime` for the two fixed formats used by the code
  (`%Y%m%dT%H%M%SZ` and `%Y%m%d`) is embedded exactly, including the ordered
  alternation and backtracking of CPython `_strptime.TimeRE` and the calendar
  validity checks performed by the `datetime` constructor.
* `calendar.timegm` is embedded through the proleptic-Gregorian ordinal, as in
  CPython `datetime.date.toordinal`.
* Database tables are lists of records; peewee `Model.get` is `List.find?`,
  `update ... where` is a guarded `List.map`, inserts append.
* `re.match` against catalog-supplied patterns is an oracle parameter
  `rm : String → String → Option (List (String × String))` returning the
  named-group dict of a successful match, `none` on failure.
-/

/-! ## Python dict model -/

/-- A Python value appearing in the info dicts of the code: either a string
(regex named-group values) or a `datetime` (the acquisition timestamp). -/
inductive PyVal where
  | str (s : String)
  | dt (year month day hour minute second : Nat)
deriving DecidableEq, Repr

/-- First binding of a key in a Python dict modelled as an association list
(Python dicts never hold a key twice, so the first binding is the binding). -/
def dictFind (d : List (String × PyVal)) (k : String) : Option (String × PyVal) :=
  match d with
  | [] => none
  | kv :: rest => if kv.1 = k then some kv else dictFind rest k

/-- Lookup in a Python dict modelled as an association list. -/
def dictGet (d : List (String × PyVal)) (k : String) : Option PyVal :=
  (dictFind d k).map (fun kv => kv.2)

/-- Python `d1 | d2`: all keys of `d1` in order, values overridden by `d2`
where present, followed by the keys of `d2` absent from `d1`. -/
def dictMerge (d1 d2 : List (String × PyVal)) : List (String × PyVal) :=
  d1.map (fun kv => (kv.1, ((dictGet d2 kv.1).getD kv.2))) ++
    d2.filter (fun kv => (dictGet d1 kv.1).isNone)

theorem dictFind_append (d1 d2 : List (String × PyVal)) (k : String) :
    dictFind (d1 ++ d2) k =
      match dictFind d1 k with
      | some kv => some kv
      | none => dictFind d2 k := by
  induction d1 with
  | nil => rfl
  | cons kv rest ih =>
    by_cases h : kv.1 = k
    · simp [dictFind, h]
    · simp [dictFind, h, ih]

theorem dictFind_map (d : List (String × PyVal)) (f : String × PyVal → PyVal)
    (k : String) :
    dictFind (d.map (fun kv => (kv.1, f kv))) k =
      (dictFind d k).map (fun kv => (kv.1, f kv)) := by
  induction d with
  | nil => rfl
  | cons kv rest ih =>
    by_cases h : kv.1 = k
    · simp [dictFind, h]
    · simp [dictFind, h, ih]

theorem dictFind_filter_not_in_left (d1 d2 : List (String × PyVal)) (k : String)
    (h : dictFind d1 k = none) :
    dictFind (d2.filter (fun kv => (dictGet d1 kv.1).isNone)) k = dictFind d2 k := by
  induction d2 with
  | nil => rfl
  | cons kv rest ih =>
    rw [List.filter_cons]
    by_cases hk : kv.1 = k
    · have hcond : ((dictGet d1 kv.1).isNone) = true := by
        rw [hk]
        unfold dictGet
        rw [h]
        rfl
      rw [if_pos hcond]
      simp [dictFind, hk]
    · by_cases hc : ((dictGet d1 kv.1).isNone) = true
      · rw [if_pos hc]
        simp [dictFind, hk, ih]
      · rw [if_neg hc]
        simp [dictFind, hk] at ih ⊢
        exact ih

theorem dictFind_key (d : List (String × PyVal)) (k : String)
    (kv : String × PyVal) (h : dictFind d k = some kv) : kv.1 = k := by
  induction d with
  | nil => simp [dictFind] at h
  | cons kv2 rest ih =>
    by_cases hk : kv2.1 = k
    · simp [dictFind, hk] at h
      rw [← h]
      exact hk
    · simp [dictFind, hk] at h
      exact ih h

/-- The key fact about Python dict merge: the right-hand dict wins on common
keys, and keys present on only one side keep their value. -/
theorem dictGet_dictMerge (d1 d2 : List (String × PyVal)) (k : String) :
    dictGet (dictMerge d1 d2) k =
      match dictGet d1 k, dictGet d2 k with
      | some _, some w => some w
      | some v, none => some v
      | none, o => o := by
  rcases h1 : dictFind d1 k with _ | kv
  · have e1 : dictFind (dictMerge d1 d2) k = dictFind d2 k := by
      unfold dictMerge
      rw [dictFind_append, dictFind_map, h1]
      simp [dictFind_filter_not_in_left _ _ _ h1]
    unfold dictGet
    rw [e1, h1]
    rcases h2 : dictFind d2 k with _ | kv2 <;> simp
  · have hkey : kv.1 = k := dictFind_key _ _ _ h1
    have e1 : dictFind (dictMerge d1 d2) k =
        some (kv.1, ((dictGet d2 kv.1).getD kv.2)) := by
      unfold dictMerge
      rw [dictFind_append, dictFind_map, h1]
      simp
    unfold dictGet
    rw [e1, h1, hkey]
    rcases h2 : dictFind d2 k with _ | kv2 <;> simp [dictGet, h2]

/-! ## CPython `strptime` for the fixed formats used by `alpenhorn_chime`

`detection.parse_acq` calls `datetime.strptime(parts[0], "%Y%m%dT%H%M%SZ")`
and `info/weather.py` calls `datetime.strptime(str(path)[0:8], "%Y%m%d")`.
CPython compiles each directive to a regular expression fragment
(`_strptime.TimeRE`), matches the whole string with backtracking over the
ordered alternations, and then builds a `datetime`, which raises `ValueError`
for a day not in the month, a second above 59, or a year below 1.  The
fragments for the directives used here are:

* `%Y` = `\d\d\d\d`
* `%m` = `1[0-2]|0[1-9]|[1-9]`
* `%d` = `3[0-1]|[1-2]\d|0[1-9]|[1-9]| [1-9]`
* `%H` = `2[0-3]|[0-1]\d|\d`
* `%M` = `[0-5]\d|\d`
* `%S` = `6[0-1]|[0-5]\d|\d`
-/

/-- Numeric value of an ASCII digit. -/
def digitVal (c : Char) : Nat := c.toNat - 48

/-- One alternative of a `TimeRE` alternation: consumes a prefix of the
character list and yields the numeric value of the consumed field. -/
def TimeAlt : Type := List Char → Option (Nat × List Char)

/-- A two-character alternative such as `1[0-2]`: both characters are
constrained. -/
def twoCharAlt (p1 p2 : Char → Bool) : TimeAlt := fun s =>
  match s with
  | a :: b :: rest =>
    if p1 a && p2 b then some (10 * digitVal a + digitVal b, rest) else none
  | _ => none

/-- A one-character alternative such as `[1-9]`. -/
def oneCharAlt (p : Char → Bool) : TimeAlt := fun s =>
  match s with
  | a :: rest => if p a then some (digitVal a, rest) else none
  | _ => none

/-- A blank-then-digit alternative (the ` [1-9]` case of `%d`). -/
def blankDigitAlt (p : Char → Bool) : TimeAlt := fun s =>
  match s with
  | a :: b :: rest => if a = ' ' && p b then some (digitVal b, rest) else none
  | _ => none

def charIn (lo hi : Char) (c : Char) : Bool := lo ≤ c && c ≤ hi

/-- Ordered alternation with backtracking: try each alternative in order and
run the continuation on its remainder; on failure of the continuation,
backtrack to the next alternative, exactly as a regex engine does. -/
def tryAlts {α : Type} (alts : List TimeAlt) (s : List Char)
    (k : Nat → List Char → Option α) : Option α :=
  match alts with
  | [] => none
  | a :: rest =>
    match a s with
    | some (v, s2) =>
      match k v s2 with
      | some r => some r
      | none => tryAlts rest s k
    | none => tryAlts rest s k

/-- `%Y`: exactly four digits. -/
def matchYear {α : Type} (s : List Char) (k : Nat → List Char → Option α) :
    Option α :=
  match s with
  | a :: b :: c :: d :: rest =>
    if a.isDigit && b.isDigit && c.isDigit && d.isDigit then
      k (1000 * digitVal a + 100 * digitVal b + 10 * digitVal c + digitVal d) rest
    else none
  | _ => none

/-- A literal character of the format string. -/
def matchLit {α : Type} (c : Char) (s : List Char) (k : List Char → Option α) :
    Option α :=
  match s with
  | a :: rest => if a = c then k rest else none
  | _ => none

/-- `%m` = `1[0-2]|0[1-9]|[1-9]`. -/
def monthAlts : List TimeAlt :=
  [twoCharAlt (fun c => c = '1') (charIn '0' '2'),
   twoCharAlt (fun c => c = '0') (charIn '1' '9'),
   oneCharAlt (charIn '1' '9')]

/-- `%d` = `3[0-1]|[1-2]\d|0[1-9]|[1-9]| [1-9]`. -/
def dayAlts : List TimeAlt :=
  [twoCharAlt (fun c => c = '3') (charIn '0' '1'),
   twoCharAlt (charIn '1' '2') Char.isDigit,
   twoCharAlt (fun c => c = '0') (charIn '1' '9'),
   oneCharAlt (charIn '1' '9'),
   blankDigitAlt (charIn '1' '9')]

/-- `%H` = `2[0-3]|[0-1]\d|\d`. -/
def hourAlts : List TimeAlt :=
  [twoCharAlt (fun c => c = '2') (charIn '0' '3'),
   twoCharAlt (charIn '0' '1') Char.isDigit,
   oneCharAlt Char.isDigit]

/-- `%M` = `[0-5]\d|\d`. -/
def minuteAlts : List TimeAlt :=
  [twoCharAlt (charIn '0' '5') Char.isDigit,
   oneCharAlt Char.isDigit]

/-- `%S` = `6[0-1]|[0-5]\d|\d`. -/
def secondAlts : List TimeAlt :=
  [twoCharAlt (fun c => c = '6') (charIn '0' '1'),
   twoCharAlt (charIn '0' '5') Char.isDigit,
   oneCharAlt Char.isDigit]

/-- A parsed `datetime.datetime` value (CPython rejects year 0, bad month
days and leap seconds when constructing it, see `strptimeValid`). -/
structure PyDateTime where
  year : Nat
  month : Nat
  day : Nat
  hour : Nat
  minute : Nat
  second : Nat
deriving DecidableEq, Repr

/-- Gregorian leap year, as in CPython `datetime._is_leap`. -/
def isLeap (y : Nat) : Bool := y % 4 = 0 && (y % 100 ≠ 0 || y % 400 = 0)

/-- Days in a month, as in CPython `datetime._days_in_month`. -/
def daysInMonth (y m : Nat) : Nat :=
  if m = 2 then (if isLeap y then 29 else 28)
  else if m = 4 ∨ m = 6 ∨ m = 9 ∨ m = 11 then 30
  else 31

/-- The `datetime` constructor checks performed after the regex match: the
regex already confines the month to 1..12, hours to 0..23 and minutes to
0..59, so what remains is the year floor, the day-of-month range and the
rejection of leap seconds. -/
def strptimeValid (y m d s : Nat) : Bool :=
  1 ≤ y && 1 ≤ d && d ≤ daysInMonth y m && s ≤ 59

/-- Full-string regex match for `"%Y%m%dT%H%M%SZ"`, with CPython's
"unconverted data remains" check (the whole string must be consumed). -/
def matchAcqFormat (s : String) : Option (Nat × Nat × Nat × Nat × Nat × Nat) :=
  matchYear s.toList (fun y s1 =>
    tryAlts monthAlts s1 (fun mo s2 =>
      tryAlts dayAlts s2 (fun d s3 =>
        matchLit 'T' s3 (fun s4 =>
          tryAlts hourAlts s4 (fun h s5 =>
            tryAlts minuteAlts s5 (fun mi s6 =>
              tryAlts secondAlts s6 (fun sec s7 =>
                matchLit 'Z' s7 (fun s8 =>
                  if s8.isEmpty then some (y, mo, d, h, mi, sec) else none))))))))

/-- `datetime.strptime(s, "%Y%m%dT%H%M%SZ")`, returning `none` where CPython
raises `ValueError`. -/
def strptimeAcqFormat (s : String) : Option PyDateTime :=
  match matchAcqFormat s with
  | none => none
  | some (y, mo, d, h, mi, sec) =>
    if strptimeValid y mo d sec then some ⟨y, mo, d, h, mi, sec⟩ else none

/-- Full-string regex match for `"%Y%m%d"`. -/
def matchDate8Format (s : String) : Option (Nat × Nat × Nat) :=
  matchYear s.toList (fun y s1 =>
    tryAlts monthAlts s1 (fun mo s2 =>
      tryAlts dayAlts s2 (fun d s3 =>
        if s3.isEmpty then some (y, mo, d) else none)))

/-- `datetime.strptime(s, "%Y%m%d")` (hour, minute and second default to 0). -/
def strptimeDate8 (s : String) : Option PyDateTime :=
  match matchDate8Format s with
  | none => none
  | some (y, mo, d) =>
    if strptimeValid y mo d 0 then some ⟨y, mo, d, 0, 0, 0⟩ else none

/-! ## `calendar.timegm` via the proleptic Gregorian ordinal -/

/-- Days before January 1 of year `y`, as CPython `datetime._days_before_year`. -/
def daysBeforeYear (y : Nat) : Nat :=
  (y - 1) * 365 + (y - 1) / 4 - (y - 1) / 100 + (y - 1) / 400

/-- Days in year `y` before the first of month `m`. -/
def daysBeforeMonth (y m : Nat) : Nat :=
  ((List.range (m - 1)).map (fun i => daysInMonth y (i + 1))).sum

/-- CPython `datetime.date.toordinal`: day 1 is 0001-01-01. -/
def toOrdinal (y m d : Nat) : Nat := daysBeforeYear y + daysBeforeMonth y m + d

/-- The ordinal of the UNIX epoch 1970-01-01. -/
def epochOrdinal : Nat := toOrdinal 1970 1 1

/-- `calendar.timegm` of a UTC datetime: seconds since the UNIX epoch
(negative before 1970, hence an integer). -/
def timegm (t : PyDateTime) : Int :=
  ((toOrdinal t.year t.month t.day : Int) - (epochOrdinal : Int)) * 86400 +
    t.hour * 3600 + t.minute * 60 + t.second

example : strptimeAcqFormat "20221106T000000Z" = some ⟨2022, 11, 6, 0, 0, 0⟩ := by decide
example : strptimeAcqFormat "2022116T000000Z" = some ⟨2022, 11, 6, 0, 0, 0⟩ := by decide
example : strptimeAcqFormat "20220230T000000Z" = none := by decide
example : strptimeAcqFormat "20221106T000061Z" = none := by decide
example : strptimeAcqFormat "20221106T000000+00" = none := by decide
example : strptimeAcqFormat "0000116T000000Z" = none := by decide
example : strptimeDate8 "20221101" = some ⟨2022, 11, 1, 0, 0, 0⟩ := by decide
example : timegm ⟨2022, 11, 1, 0, 0, 0⟩ = 1667260800 := by decide
example : timegm ⟨2022, 11, 6, 0, 0, 0⟩ = 1667692800 := by decide

/-! ## The type catalog (`types.py`, `inst.py`)

`AcqType`, `FileType` and `ArchiveInst` rows carry the columns used by the
detection code; the `AcqFileTypes` junction rows are (acq-type name,
file-type name) pairs kept in catalog-registration order, and
`AcqType.file_types` is the join
`FileType.select().join(AcqFileTypes).where(AcqFileTypes.acq_type == self)`. -/

/-- An `AcqType` row (name unique; `info_class` optional). -/
structure AcqTypeRow where
  name : String
  info_class : Option String
deriving DecidableEq, Repr

/-- An `ArchiveInst` row. -/
structure InstRow where
  name : String
deriving DecidableEq, Repr

/-- A `FileType` row (name unique; a `none` pattern means the type is never
matched during import). -/
structure FileTypeRow where
  name : String
  info_class : Option String
  pattern : Option String
deriving DecidableEq, Repr

/-- The catalog tables consulted by `import_detect`. -/
structure Catalog where
  acqtypes : List AcqTypeRow
  insts : List InstRow
  filetypes : List FileTypeRow
  acq_file_types : List (String × String)
deriving DecidableEq, Repr

/-- `AcqType.file_types`: the `FileType` rows joined through the
`AcqFileTypes` junction rows of the given `AcqType`, in registration order. -/
def fileTypesFor (cat : Catalog) (at2 : AcqTypeRow) : List FileTypeRow :=
  (cat.acq_file_types.filter (fun p => p.1 == at2.name)).filterMap
    (fun p => cat.filetypes.find? (fun ft => ft.name == p.2))

/-! ## `detection.parse_acq` and `detection.import_detect` -/

/-- The dict returned by a successful `parse_acq`. -/
structure AcqData where
  acqtime : PyDateTime
  acqinst : InstRow
  acqtype : AcqTypeRow
deriving DecidableEq, Repr

/-- Python `str.split("_")`: split on every underscore, keeping empty
parts ( `"".split("_") == [""]` ). -/
def pySplitUnderscore : List Char → List (List Char)
  | [] => [[]]
  | c :: rest =>
    match pySplitUnderscore rest with
    | [] => [[c]]
    | g :: gs => if c = '_' then [] :: g :: gs else (c :: g) :: gs

/-- `name.split("_")` on a Lean string. -/
def pySplit (name : String) : List String :=
  (pySplitUnderscore name.toList).map (fun l => String.mk l)

/-- `detection.parse_acq`: split the acquisition name on `"_"`; require
exactly three parts; look up the `AcqType` by the third part, then the
`ArchiveInst` by the second, then parse the first with
`strptime("%Y%m%dT%H%M%SZ")`.  Each `DoesNotExist` / `ValueError` is caught
and turned into `None`. -/
def parse_acq (cat : Catalog) (name : String) : Option AcqData :=
  match pySplit name with
  | [p0, p1, p2] =>
    match cat.acqtypes.find? (fun r => r.name == p2) with
    | none => none
    | some acqtype =>
      match cat.insts.find? (fun r => r.name == p1) with
      | none => none
      | some inst =>
        match strptimeAcqFormat p0 with
        | none => none
        | some time => some ⟨time, inst, acqtype⟩
  | _ => none

/-- A relative path as decomposed by `import_detect`:
`acq_name = str(path.parent)` and `file_name = str(path.name)`. -/
structure RelPath where
  parent : String
  name : String
deriving DecidableEq, Repr

/-- The regex oracle standing for `re.match(filetype.pattern, file_name)`:
given the pattern text and the file name it returns `m.groupdict()` of a
successful match, `none` when the match fails. -/
def ReMatch : Type := String → String → Option (List (String × String))

/-- The `for filetype in import_data["acqtype"].file_types: ... else:` loop of
`import_detect`: skip `None` patterns, return the first file type whose
pattern matches together with the match's named groups; the loop's `else`
clause (no `break`) yields `none`. -/
def fileTypeSearch (rm : ReMatch) (file_name : String) :
    List FileTypeRow → Option (FileTypeRow × List (String × String))
  | [] => none
  | ft :: rest =>
    match ft.pattern with
    | none => fileTypeSearch rm file_name rest
    | some p =>
      match rm p file_name with
      | some m => some (ft, m)
      | none => fileTypeSearch rm file_name rest

/-- The import data collected by `import_detect` and closed over by the
`functools.partial` wrapping `store_info`. -/
structure ImportData where
  acq : AcqData
  filetype : FileTypeRow
  name_data : List (String × String)
deriving DecidableEq, Repr

/-- `detection.import_detect`: classify `path`; `none` stands for the
`(None, None)` no-match return, `some (acq_name, data)` for the successful
`(acq_name, callback)` return. -/
def import_detect (cat : Catalog) (rm : ReMatch) (path : RelPath) :
    Option (String × ImportData) :=
  let acq_name := path.parent
  let file_name := path.name
  match parse_acq cat acq_name with
  | none => none
  | some d =>
    match fileTypeSearch rm file_name (fileTypesFor cat d.acqtype) with
    | none => none
    | some (ft, m) => some (acq_name, ⟨d, ft, m⟩)

/-! ### A concrete catalog and regex oracle for witnesses -/

/-- A small concrete catalog: the `corr` acquisition type with its `corr`
file type (pattern as in the seeded CHIME catalog, abbreviated to an opaque
key resolved by `rmCorr`), a pattern-less `log` file type, and the `chime`
instrument. -/
def catC : Catalog :=
  { acqtypes := [⟨"corr", some "CorrAcqInfo"⟩],
    insts := [⟨"chime"⟩],
    filetypes := [⟨"corr", some "CorrFileInfo", some "corrpat"⟩,
                  ⟨"log", none, none⟩],
    acq_file_types := [("corr", "log"), ("corr", "corr")] }

/-- Does a file name match `([0-9]\x7b8\x7d)_([0-9]\x7b4\x7d)\.h5` under
`re.match` (anchored at the start only)?  The pattern has no named groups, so
`groupdict()` is empty. -/
def corrNameMatch (s : String) : Bool :=
  let cs := s.toList
  (cs.take 8).all Char.isDigit && (cs.take 8).length = 8 &&
    ((cs.drop 8).take 1 = ['_']) &&
    ((cs.drop 9).take 4).all Char.isDigit && ((cs.drop 9).take 4).length = 4 &&
    ((cs.drop 13).take 3 = ['.', 'h', '5'])

/-- A concrete regex oracle implementing the `corrpat` pattern. -/
def rmCorr : ReMatch := fun p file_name =>
  if p = "corrpat" then (if corrNameMatch file_name then some [] else none)
  else none

example : import_detect catC rmCorr ⟨"20221106T000000Z_chime_corr", "00000000_0000.h5"⟩ =
    some ("20221106T000000Z_chime_corr",
      ⟨⟨⟨2022, 11, 6, 0, 0, 0⟩, ⟨"chime"⟩, ⟨"corr", some "CorrAcqInfo"⟩⟩,
        ⟨"corr", some "CorrFileInfo", some "corrpat"⟩, []⟩) := by decide

example : import_detect catC rmCorr ⟨"20221106T000000Z_chime_corr", "junk.h5"⟩ = none := by
  decide

/-! ### The spec's literal timestamp grammar (for comparison with the code)

Modelled from the spec's words, not from the source: "a strict
`YYYYMMDDTHHMMSSZ` pattern" / "the exact form YYYYMMDDTHHMMSSZ" — sixteen
characters, digits in the eight date and six time positions, a literal `T`
and a literal `Z`. -/
def specExactTimestampForm (s : String) : Bool :=
  let cs := s.toList
  cs.length = 16 &&
    (cs.take 8).all Char.isDigit &&
    ((cs.drop 8).take 1 = ['T']) &&
    ((cs.drop 9).take 6).all Char.isDigit &&
    ((cs.drop 15).take 1 = ['Z'])

example : specExactTimestampForm "20221106T000000Z" = true := by decide
example : specExactTimestampForm "2022116T000000Z" = false := by decide

/-! ## Weather file info (`info/weather.py`)

`WeatherFileInfo._set_info` runs
`date = datetime.strptime(str(path)[0:8], "%Y%m%d")`, where `path` is the
path of the imported file relative to the node root — that is, the
acquisition directory followed by the file name — then
`start_time = calendar.timegm(date.utctimetuple())` and
`finish_time = calendar.timegm((date + timedelta(days=1) -
timedelta(seconds=1)).utctimetuple())`, and returns the dict
`{start_time, finish_time, date}` with `date` the `datetime` object itself. -/

/-- The row data produced by `WeatherFileInfo._set_info`; the `date` field
holds the `datetime` value the code puts in the dict. -/
structure WeatherInfoData where
  start_time : Int
  finish_time : Int
  date : PyDateTime
deriving DecidableEq, Repr

/-- Python `s[0:8]`. -/
def pyTake8 (s : String) : String := String.mk (s.toList.take 8)

/-- `WeatherFileInfo._set_info` on the relative path of the imported file;
`none` models the `ValueError` that `strptime` raises escaping the call. -/
def weatherSetInfo (path : String) : Option WeatherInfoData :=
  match strptimeDate8 (pyTake8 path) with
  | none => none
  | some date =>
    some { start_time := timegm date,
           finish_time := timegm date + 86400 - 1,
           date := date }

/-- Python left-pad with zeros to width 2 (as in `datetime.__str__`). -/
def pad2 (n : Nat) : String := if n < 10 then "0" ++ toString n else toString n

/-- Python left-pad with zeros to width 4. -/
def pad4 (n : Nat) : String :=
  if n < 10 then "000" ++ toString n
  else if n < 100 then "00" ++ toString n
  else if n < 1000 then "0" ++ toString n
  else toString n

/-- Python `str(datetime)`: `"YYYY-MM-DD HH:MM:SS"` — the text that ends up
in the `date` CharField when the row is saved. -/
def pyDateTimeStr (t : PyDateTime) : String :=
  pad4 t.year ++ "-" ++ pad2 t.month ++ "-" ++ pad2 t.day ++ " " ++
    pad2 t.hour ++ ":" ++ pad2 t.minute ++ ":" ++ pad2 t.second

example : pyDateTimeStr ⟨2022, 11, 1, 0, 0, 0⟩ = "2022-11-01 00:00:00" := by decide

/-! ## Calibration info class resolution (`info/cal.py`) -/

/-- The three concrete calibration info classes of `info/cal.py` (pairwise
distinct subclasses of `CalibrationFileInfo`). -/
inductive CalInfoClass where
  | digitalGainFileInfo
  | calibrationGainFileInfo
  | flagInputFileInfo
deriving DecidableEq, Repr

/-- `info.cal.cal_info_class`: the indirect file-info-class resolver for the
`calibration` file type; `Except.error` carries the message of the
`ValueError` the code raises for an unknown acquisition type. -/
def cal_info_class (acqtype : AcqTypeRow) : Except String CalInfoClass :=
  if acqtype.name = "digitalgain" then Except.ok CalInfoClass.digitalGainFileInfo
  else if acqtype.name = "gain" then Except.ok CalInfoClass.calibrationGainFileInfo
  else if acqtype.name = "flaginput" then Except.ok CalInfoClass.flagInputFileInfo
  else Except.error ("unknown acqtype: " ++ acqtype.name ++ "\"")

/-! ## Correlator acquisition info (`info/corr.py`)

`CorrAcqInfo._info_from_file` opens the container, walks the time index
accumulating `t[i][1] - t[i-1][1]` for `i` in `1..len(t)`, takes
`np.median` of the deltas, and reads the lengths of the frequency and
product indexes.  Timestamps are embedded as rationals (IEEE doubles are a
subset); `np.median` of an empty array is NaN, embedded as `none` (the test
suite shows it is stored as NULL). -/

/-- The opened HDF5 container: the `index_map/time` compound entries (the
code reads component `[1]`, the ctime), and the frequency and product
index arrays (only their lengths are used). -/
structure CorrContainer where
  time : List (Rat × Rat)
  freq : List Rat
  prod : List Rat

/-- The delta-accumulation loop
`for i in range(1, len(t)): dt = append(dt, t[i][1] - t[i-1][1])`. -/
def corrDeltas : List (Rat × Rat) → List Rat
  | a :: b :: rest => (b.2 - a.2) :: corrDeltas (b :: rest)
  | _ => []

/-- `np.median`: sort ascending; odd length takes the middle element, even
length averages the two middle elements, empty input is NaN (`none`). -/
def npMedian (l : List Rat) : Option Rat :=
  let s := l.insertionSort (fun a b => a ≤ b)
  let n := s.length
  if n = 0 then none
  else if n % 2 = 1 then some (s.getD (n / 2) 0)
  else some ((s.getD (n / 2 - 1) 0 + s.getD (n / 2) 0) / 2)

/-- The info dict returned by `CorrAcqInfo._info_from_file`. -/
structure CorrAcqInfoData where
  integration : Option Rat
  nfreq : Nat
  nprod : Nat
deriving DecidableEq, Repr

/-- `CorrAcqInfo._info_from_file`. -/
def corrAcqInfoFromFile (f : CorrContainer) : CorrAcqInfoData :=
  { integration := npMedian (corrDeltas f.time),
    nfreq := f.freq.length,
    nprod := f.prod.length }

example : npMedian [] = none := by decide
example :
    corrAcqInfoFromFile ⟨[(0, 0), (1, 30), (2, 60), (3, 90)], [400, 800], [1, 2, 3]⟩ =
      ⟨some 30, 2, 3⟩ := by
  norm_num [corrAcqInfoFromFile, corrDeltas, npMedian, List.insertionSort,
    List.orderedInsert]

/-! ## The reserving node I/O (`reserving.py`) -/

/-- An `ArchiveFileCopy` as far as `ReservingNodeIO.delete` touches it:
`copy.file.path`, the `wants_file` flag and the `last_update` stamp. -/
structure FileCopy where
  path : String
  wants_file : String
  last_update : Option Nat
deriving DecidableEq, Repr

/-- `ReservingNodeIO.delete`, parametrised by the reservation table lookup
`FileReservation.reserved_in_node` (the list of reservation-holder names for
a file on this node) and the wall clock `now`.  Returns the `new_list`
passed to `super().delete`, the file copies saved with their cancellation
update, and the emitted log lines, in loop order. -/
def reservingDelete (reserved : String → List String) (now : Nat) :
    List FileCopy → List FileCopy × List FileCopy × List String
  | [] => ([], [], [])
  | c :: rest =>
    let r := reservingDelete reserved now rest
    match reserved c.path with
    | [] => (c :: r.1, r.2.1, r.2.2)
    | t :: _ =>
      (r.1,
       { c with wants_file := "Y", last_update := some now } :: r.2.1,
       ("Cancelling deletion of " ++ c.path ++ ": file reserved by: " ++ t) :: r.2.2)

/-! ## The post-import callback (`detection.store_info`, `detection.set_info`)

The extended `ArchiveAcq` / `ArchiveFile` rows and the info tables are lists
of records; `Model.get(id=...)` is a `find?` (a miss models the uncaught
`DoesNotExist`), `save()` rewrites the row in place, and `set_info` appends
one info record when the type names an info class and does nothing when
`info_class` is `None`.  The extraction performed inside the info-class
constructor is abstracted to the record's identity and `name_data` payload,
which is all the at-most-once bookkeeping of `store_info` depends on. -/

/-- An extended `ArchiveAcq` row: `type` and `inst` are nullable columns. -/
structure AcqRow where
  id : Nat
  name : String
  type : Option AcqTypeRow
  inst : Option InstRow
deriving DecidableEq, Repr

/-- An extended `ArchiveFile` row: `type` is a nullable column. -/
structure FileRow where
  id : Nat
  name : String
  acq_id : Nat
  type : Option FileTypeRow
deriving DecidableEq, Repr

/-- An info-table record created by `set_info`. -/
structure InfoRec where
  item_id : Nat
  name_data : List (String × PyVal)
deriving DecidableEq, Repr

/-- The database state touched by `store_info`. -/
structure ImportDbState where
  acqs : List AcqRow
  files : List FileRow
  acq_infos : List InfoRec
  file_infos : List InfoRec
deriving DecidableEq, Repr

/-- `detection.set_info` restricted to its observable effect on an info
table: when `info_name` is `None` it does nothing, otherwise it instantiates
the class and saves one new record. -/
def setInfoRecords (info_name : Option String) (item_id : Nat)
    (name_data : List (String × PyVal)) (recs : List InfoRec) : List InfoRec :=
  match info_name with
  | none => recs
  | some _ => recs ++ [⟨item_id, name_data⟩]

/-- The first block of `store_info` ("Add extra acq data, if necessary"):
when `acq` is not `None`, re-fetch the row by id, set its `type` and `inst`
from the import data, save, and run `set_info` for the acq info class.
`none` models an uncaught `DoesNotExist` from the re-fetch. -/
def storeInfoAcqPhaseSome (aid : Nat) (d : ImportData) (s : ImportDbState) :
    Option ImportDbState :=
  match s.acqs.find? (fun r => r.id == aid) with
  | none => none
  | some row =>
    some { s with
      acqs := s.acqs.map (fun r =>
        if r.id == aid then
          { row with type := some d.acq.acqtype, inst := some d.acq.acqinst }
        else r),
      acq_infos := setInfoRecords d.acq.acqtype.info_class aid
        [("acqtime", PyVal.dt d.acq.acqtime.year d.acq.acqtime.month
          d.acq.acqtime.day d.acq.acqtime.hour d.acq.acqtime.minute
          d.acq.acqtime.second)] s.acq_infos }

def storeInfoAcqPhase (acq : Option Nat) (d : ImportData) (s : ImportDbState) :
    Option ImportDbState :=
  match acq with
  | none => some s
  | some aid => storeInfoAcqPhaseSome aid d s

/-- The second block of `store_info` ("Add extra file data, if necessary"):
when `file` is not `None`, re-fetch the row by id, set its `type`, save, and
run `set_info` for the file info class. -/
def storeInfoFilePhaseSome (fid : Nat) (d : ImportData)
    (s1 : ImportDbState) : Option ImportDbState :=
  match s1.files.find? (fun r => r.id == fid) with
  | none => none
  | some row =>
    some { s1 with
      files := s1.files.map (fun r =>
        if r.id == fid then { row with type := some d.filetype } else r),
      file_infos := setInfoRecords d.filetype.info_class fid
        (d.name_data.map (fun kv => (kv.1, PyVal.str kv.2))) s1.file_infos }

def storeInfoFilePhase (file : Option Nat) (d : ImportData)
    (s1 : ImportDbState) : Option ImportDbState :=
  match file with
  | none => some s1
  | some fid => storeInfoFilePhaseSome fid d s1

/-- `detection.store_info`, the post-import callback: `file` and `acq` are
the ids of the newly created `ArchiveFile` / `ArchiveAcq`, or `none` when
they already existed before the import; the two blocks run in sequence. -/
def store_info (file : Option Nat) (acq : Option Nat) (d : ImportData)
    (s : ImportDbState) : Option ImportDbState :=
  (storeInfoAcqPhase acq d s).bind (storeInfoFilePhase file d)

/-- The file phase never touches the acq tables. -/
theorem storeInfoFilePhase_acq_frame (file : Option Nat) (d : ImportData)
    (s1 s2 : ImportDbState) (h : storeInfoFilePhase file d s1 = some s2) :
    s2.acq_infos = s1.acq_infos ∧ s2.acqs = s1.acqs := by
  rcases file with _ | fid
  · have h2 : s1 = s2 := by
      unfold storeInfoFilePhase at h
      simpa using h
    rw [← h2]
    exact ⟨rfl, rfl⟩
  · have h2 : storeInfoFilePhaseSome fid d s1 = some s2 := h
    unfold storeInfoFilePhaseSome at h2
    rcases hf : s1.files.find? (fun r => r.id == fid) with _ | row <;> rw [hf] at h2
    · simp at h2
    · simp only [Option.some.injEq] at h2
      rw [← h2]
      exact ⟨rfl, rfl⟩

/-- The acq phase never touches the file tables. -/
theorem storeInfoAcqPhase_file_frame (acq : Option Nat) (d : ImportData)
    (s s1 : ImportDbState) (h : storeInfoAcqPhase acq d s = some s1) :
    s1.file_infos = s.file_infos ∧ s1.files = s.files := by
  rcases acq with _ | aid
  · have h2 : s = s1 := by
      unfold storeInfoAcqPhase at h
      simpa using h
    rw [← h2]
    exact ⟨rfl, rfl⟩
  · have h2 : storeInfoAcqPhaseSome aid d s = some s1 := h
    unfold storeInfoAcqPhaseSome at h2
    rcases ha : s.acqs.find? (fun r => r.id == aid) with _ | row <;> rw [ha] at h2
    · simp at h2
    · simp only [Option.some.injEq] at h2
      rw [← h2]
      exact ⟨rfl, rfl⟩

/-! ## Catalog seeding (`util.update_types`)

`update_types` works on the alpenhorn `AcqType` / `FileType` tables (which
carry `priority` and `info_config` columns) and the `AcqFileTypes` junction
table.  Each seed entry is first applied as
`update(**row).where(name == row["name"])`; when no row was updated it is
inserted.  The acqtype-to-filetype mapping then, per entry, deletes every
junction row of that acqtype with a different filetype and inserts the
mapped pair if absent. -/

/-- An alpenhorn `AcqType` or `FileType` row as written by `update_types`. -/
structure TypeRow where
  id : Nat
  name : String
  priority : Nat
  info_class : Option String
  notes : String
  info_config : Option String
deriving DecidableEq, Repr

/-- An `AcqFileTypes` junction row (composite primary key). -/
structure PairRow where
  acq_type : Nat
  file_type : Nat
deriving DecidableEq, Repr

/-- The three tables `update_types` touches. -/
structure TypeDb where
  acqtypes : List TypeRow
  filetypes : List TypeRow
  pairs : List PairRow
deriving DecidableEq, Repr

/-- Python `str.startswith` on the first character, i.e. `info_class[0] == "="`. -/
def startsWithEq (s : String) : Bool :=
  match s.toList with
  | c :: _ => c = '='
  | [] => false

/-- Python `s[1:]`. -/
def pyDropFirst (s : String) : String := String.mk (s.toList.drop 1)

/-- `update_types.typedict`: qualify the info class name with the module
path, keeping a leading `=` sigil (the indirect-resolver marker) in front. -/
def typedict (id2 : Nat) (name notes : String) (info_class : Option String)
    (priority : Nat) : TypeRow :=
  { id := id2, name := name, priority := priority,
    info_class :=
      match info_class with
      | none => none
      | some s =>
        if startsWithEq s then some ("=alpenhorn_chime.info." ++ pyDropFirst s)
        else some ("alpenhorn_chime.info." ++ s),
    notes := notes, info_config := none }

/-- One `update ... where name == ...; if count == 0: insert` step. -/
def upsertType (row : TypeRow) (tbl : List TypeRow) : List TypeRow :=
  if tbl.any (fun r => r.name == row.name) then
    tbl.map (fun r => if r.name == row.name then row else r)
  else tbl ++ [row]

/-- The seeded acqtypes of `update_types` (notes abbreviated to their first
words; only `id`, `name` and `info_class` matter to any caller). -/
def acqTypeSeed : List TypeRow :=
  [typedict 1 "corr" "Traditionally hand-tooled correlation products from a correlator." (some "CorrAcqInfo") 0,
   typedict 2 "hk" "Housekeeping data." none 0,
   typedict 3 "rawadc" "Raw ADC data taken for testing the status of a correlator." (some "RawadcAcqInfo") 0,
   typedict 5 "weather" "Weather data scraped from the wview archive provided by DRAO." (some "WeatherAcqDetect") 0,
   typedict 6 "hkp" "New prometheus based scheme for recording housekeeping data." none 0,
   typedict 7 "digitalgain" "FPGA digital gains from the F-Engine." (some "DigitalGainAcqDetect") 0,
   typedict 8 "gain" "Complex gains from the calibration broker." (some "CalibrationGainAcqDetect") 0,
   typedict 9 "flaginput" "Good correlator input flags from the flagging broker." (some "FlagInputAcqDetect") 0,
   typedict 11 "hfb" "21cm absorber (Hyper Fine Beam) data taken from a correlator." (some "HFBAcqInfo") 0]

/-- The seeded filetypes of `update_types`. -/
def fileTypeSeed : List TypeRow :=
  [typedict 1 "corr" "Traditionally hand-tooled correlation products from a correlator." (some "CorrFileInfo") 0,
   typedict 2 "log" "A human-readable log file produced by acquisition software." none 0,
   typedict 3 "hk" "A housekeeping file." none 0,
   typedict 4 "atmel_id" "A short file listing the ATMEL ID\x27s and human readable names in an HK acquisition." none 0,
   typedict 5 "rawadc" "Raw ADC data taken for testing the status of a correlator." (some "RawadcFileInfo") 0,
   typedict 6 "pdf" "A portable document file." none 0,
   typedict 10 "weather" "Weather data scraped from the wview archive provided by DRAO." (some "WeatherFileInfo") 0,
   typedict 11 "hkp" "Archive of the prometheus housekeeping data." none 0,
   typedict 12 "calibration" "Calibration data products." (some "=cal_info_class") 0,
   typedict 14 "hfb" "21cm absorber (Hyper Fine Beam) data taken from a correlator." (some "HFBFileInfo") 0]

/-- The acqtype-to-filetype mapping seeded by `update_types`. -/
def acqFileTypeMapping : List (String × String) :=
  [("corr", "corr"), ("rawadc", "rawadc"), ("weather", "weather"),
   ("digitalgain", "calibration"), ("gain", "calibration"),
   ("flaginput", "calibration"), ("hfb", "hfb")]

/-- One iteration of the mapping loop: fetch the two rows by name (an
uncaught `DoesNotExist` on a miss), delete every junction row of this
acqtype with a different filetype, then insert the pair if it is absent. -/
def mappingStep (db : TypeDb) (names : String × String) : Option TypeDb :=
  match db.acqtypes.find? (fun r => r.name == names.1) with
  | none => none
  | some at2 =>
    match db.filetypes.find? (fun r => r.name == names.2) with
    | none => none
    | some ft =>
      let pairs1 := db.pairs.filter
        (fun p => !(p.acq_type == at2.id && !(p.file_type == ft.id)))
      let pairs2 :=
        if pairs1.any (fun p => p.acq_type == at2.id && p.file_type == ft.id) then
          pairs1
        else pairs1 ++ [⟨at2.id, ft.id⟩]
      some { db with pairs := pairs2 }

/-- The acqtype seeding loop applied to an existing table. -/
def seedAcqTable (tbl : List TypeRow) : List TypeRow :=
  acqTypeSeed.foldl (fun t r => upsertType r t) tbl

/-- The filetype seeding loop applied to an existing table. -/
def seedFileTable (tbl : List TypeRow) : List TypeRow :=
  fileTypeSeed.foldl (fun t r => upsertType r t) tbl

/-- `util.update_types`. -/
def update_types (db : TypeDb) : Option TypeDb :=
  acqFileTypeMapping.foldlM mappingStep
    { db with
      acqtypes := seedAcqTable db.acqtypes,
      filetypes := seedFileTable db.filetypes }

example : update_types ⟨[], [], []⟩ ≠ none := by decide

/-! ## Claim theorems -/

/-- `CHIMEFileInfo._set_info`: compute `info` from `_info_from_file` when the
class has that capability (else the empty dict) and return
`info | name_data`. -/
def chimeFileSetInfo (content : Option (List (String × PyVal)))
    (name_data : List (String × PyVal)) : List (String × PyVal) :=
  dictMerge
    (match content with
     | some info => info
     | none => [])
    name_data

/-- Claim C4: when both a content-derived mapping and classification-supplied
`name_data` exist, `CHIMEFileInfo._set_info` returns the content mapping
updated with `name_data`: on every key present in both, the `name_data`
value wins; a key present in only one of the two keeps its value. -/
theorem c4_set_info_merge_precedence
    (info nd : List (String × PyVal)) (k : String) :
    (dictGet nd k ≠ none →
      dictGet (chimeFileSetInfo (some info) nd) k = dictGet nd k)
    ∧ (dictGet nd k = none →
      dictGet (chimeFileSetInfo (some info) nd) k = dictGet info k)
    ∧ (dictGet info k = none →
      dictGet (chimeFileSetInfo (some info) nd) k = dictGet nd k) := by
  have h := dictGet_dictMerge info nd k
  unfold chimeFileSetInfo
  refine ⟨fun h2 => ?_, fun h2 => ?_, fun h2 => ?_⟩
  · rw [h]
    rcases hb : dictGet nd k with _ | w
    · exact absurd hb h2
    · rcases ha : dictGet info k with _ | v <;> rfl
  · rw [h, h2]
    rcases ha : dictGet info k with _ | v <;> rfl
  · rw [h, h2]

/-- Witness for C4 at a concrete record: the filename-derived `chunk_number`
overrides the content-derived one, while `start_time` (content only) and
`freq_number` (filename only) pass through. -/
theorem c4_set_info_merge_precedence_witness :
    dictGet (chimeFileSetInfo
        (some [("start_time", PyVal.str "a"), ("chunk_number", PyVal.str "b")])
        [("chunk_number", PyVal.str "c"), ("freq_number", PyVal.str "d")])
      "chunk_number" = some (PyVal.str "c") := by
  have h := (c4_set_info_merge_precedence
    [("start_time", PyVal.str "a"), ("chunk_number", PyVal.str "b")]
    [("chunk_number", PyVal.str "c"), ("freq_number", PyVal.str "d")]
    "chunk_number").1 (by decide)
  rw [h]
  decide

/-- Claim C6: `cal_info_class` maps the acquisition-type names `digitalgain`,
`gain` and `flaginput` to the three pairwise-distinct concrete info classes,
and raises (a `ValueError` reporting the failed lookup) on every other
acquisition-type name instead of returning a class. -/
theorem c6_cal_info_class_resolution :
    (∀ i, cal_info_class ⟨"digitalgain", i⟩ =
      Except.ok CalInfoClass.digitalGainFileInfo)
    ∧ (∀ i, cal_info_class ⟨"gain", i⟩ =
      Except.ok CalInfoClass.calibrationGainFileInfo)
    ∧ (∀ i, cal_info_class ⟨"flaginput", i⟩ =
      Except.ok CalInfoClass.flagInputFileInfo)
    ∧ (CalInfoClass.digitalGainFileInfo ≠ CalInfoClass.calibrationGainFileInfo
      ∧ CalInfoClass.digitalGainFileInfo ≠ CalInfoClass.flagInputFileInfo
      ∧ CalInfoClass.calibrationGainFileInfo ≠ CalInfoClass.flagInputFileInfo)
    ∧ (∀ at2 : AcqTypeRow, at2.name ≠ "digitalgain" → at2.name ≠ "gain" →
      at2.name ≠ "flaginput" →
      cal_info_class at2 = Except.error ("unknown acqtype: " ++ at2.name ++ "\"")) := by
  refine ⟨fun i => rfl, fun i => rfl, fun i => rfl, by decide, fun at2 h1 h2 h3 => ?_⟩
  unfold cal_info_class
  rw [if_neg h1, if_neg h2, if_neg h3]

/-- Witness for C6: an unknown fourth acquisition type (`timing`) resolves to
the lookup `ValueError`, not to a class. -/
theorem c6_cal_info_class_resolution_witness :
    cal_info_class ⟨"timing", none⟩ =
      Except.error "unknown acqtype: timing\"" :=
  (c6_cal_info_class_resolution).2.2.2.2 ⟨"timing", none⟩
    (by decide) (by decide) (by decide)

/-- Auxiliary: the two complementary filters of a list partition its length. -/
theorem length_filter_add_length_filter_not {α : Type} (p : α → Bool)
    (l : List α) :
    (l.filter p).length + (l.filter (fun x => !(p x))).length = l.length := by
  induction l with
  | nil => rfl
  | cons a rest ih =>
    rcases h : p a with _ | _ <;>
      simp [List.filter_cons, h, Nat.succ_eq_add_one, ← ih] <;> omega

/-- Claim C7: `ReservingNodeIO.delete` on a batch of `N` copies of which `M`
have a reservation passes exactly the `N − M` unreserved copies to the
parent `delete`, saves each of the `M` dropped copies with `wants_file`
set to `"Y"` (and a fresh `last_update`), and logs the reservation holder
(`tags[0].name`) of each dropped copy. -/
theorem c7_reserving_delete (reserved : String → List String) (now : Nat)
    (copies : List FileCopy) :
    (reservingDelete reserved now copies).1 =
        copies.filter (fun c => (reserved c.path).isEmpty)
    ∧ (reservingDelete reserved now copies).1.length =
        copies.length -
          (copies.filter (fun c => !(reserved c.path).isEmpty)).length
    ∧ (reservingDelete reserved now copies).2.1 =
        (copies.filter (fun c => !(reserved c.path).isEmpty)).map
          (fun c => { c with wants_file := "Y", last_update := some now })
    ∧ (reservingDelete reserved now copies).2.2 =
        (copies.filter (fun c => !(reserved c.path).isEmpty)).map
          (fun c => "Cancelling deletion of " ++ c.path ++
            ": file reserved by: " ++ (reserved c.path).headD "") := by
  have key : (reservingDelete reserved now copies).1 =
        copies.filter (fun c => (reserved c.path).isEmpty)
      ∧ (reservingDelete reserved now copies).2.1 =
        (copies.filter (fun c => !(reserved c.path).isEmpty)).map
          (fun c => { c with wants_file := "Y", last_update := some now })
      ∧ (reservingDelete reserved now copies).2.2 =
        (copies.filter (fun c => !(reserved c.path).isEmpty)).map
          (fun c => "Cancelling deletion of " ++ c.path ++
            ": file reserved by: " ++ (reserved c.path).headD "") := by
    induction copies with
    | nil => exact ⟨rfl, rfl, rfl⟩
    | cons c rest ih =>
      rcases hr : reserved c.path with _ | ⟨t, ts⟩
      · have he : (reserved c.path).isEmpty = true := by rw [hr]; rfl
        simp [reservingDelete, hr, List.filter_cons, he, ih.1, ih.2.1, ih.2.2]
      · have he : (reserved c.path).isEmpty = false := by rw [hr]; rfl
        simp [reservingDelete, hr, List.filter_cons, he, ih.1, ih.2.1, ih.2.2]
  refine ⟨key.1, ?_, key.2.1, key.2.2⟩
  rw [key.1]
  have hpart : (copies.filter (fun c => (reserved c.path).isEmpty)).length +
      (copies.filter (fun c => !(reserved c.path).isEmpty)).length =
      copies.length := by
    simpa using length_filter_add_length_filter_not
      (fun c => (reserved c.path).isEmpty) copies
  omega

/-- Witness for C7: a two-copy batch with one reservation passes down exactly
the unreserved copy and re-marks the reserved one. -/
theorem c7_reserving_delete_witness :
    (reservingDelete
        (fun p => if p = "a/r.h5" then ["cfm"] else []) 7
        [⟨"a/r.h5", "N", none⟩, ⟨"a/k.h5", "N", none⟩]) =
      ([⟨"a/k.h5", "N", none⟩],
       [⟨"a/r.h5", "Y", some 7⟩],
       ["Cancelling deletion of a/r.h5: file reserved by: cfm"]) := by
  have h := c7_reserving_delete
    (fun p => if p = "a/r.h5" then ["cfm"] else []) 7
    [⟨"a/r.h5", "N", none⟩, ⟨"a/k.h5", "N", none⟩]
  have e : (reservingDelete
      (fun p => if p = "a/r.h5" then ["cfm"] else []) 7
      [⟨"a/r.h5", "N", none⟩, ⟨"a/k.h5", "N", none⟩]) =
      ((reservingDelete (fun p => if p = "a/r.h5" then ["cfm"] else []) 7
        [⟨"a/r.h5", "N", none⟩, ⟨"a/k.h5", "N", none⟩]).1,
       (reservingDelete (fun p => if p = "a/r.h5" then ["cfm"] else []) 7
        [⟨"a/r.h5", "N", none⟩, ⟨"a/k.h5", "N", none⟩]).2.1,
       (reservingDelete (fun p => if p = "a/r.h5" then ["cfm"] else []) 7
        [⟨"a/r.h5", "N", none⟩, ⟨"a/k.h5", "N", none⟩]).2.2) := rfl
  rw [e, h.1, h.2.2.1, h.2.2.2]
  decide

/-- The delta loop of `CorrAcqInfo._info_from_file` computes exactly the
deltas between consecutive entries of the time index. -/
theorem corrDeltas_eq_zipWith (t : List (Rat × Rat)) :
    corrDeltas t = List.zipWith (fun a b => b.2 - a.2) t t.tail := by
  induction t with
  | nil => rfl
  | cons a rest ih =>
    cases rest with
    | nil => rfl
    | cons b rest2 =>
      simp only [corrDeltas, List.tail_cons, List.zipWith]
      rw [ih]
      rfl

/-- Claim C8: correlator acquisition extraction sets `integration` to the
median of the consecutive time-index deltas, `nfreq` to the length of the
frequency index, and `nprod` to the length of the product index; on the
synthetic time index `[0, 30, 60, 90]` seconds the integration is
exactly `30.0`. -/
theorem c8_corr_acq_info :
    (∀ f : CorrContainer,
      corrAcqInfoFromFile f =
        { integration := npMedian (List.zipWith (fun a b => b.2 - a.2) f.time f.time.tail),
          nfreq := f.freq.length,
          nprod := f.prod.length })
    ∧ corrAcqInfoFromFile
        ⟨[(0, 0), (1, 30), (2, 60), (3, 90)], [400, 800], [1, 2, 3]⟩ =
      ⟨some 30, 2, 3⟩ := by
  constructor
  · intro f
    unfold corrAcqInfoFromFile
    rw [corrDeltas_eq_zipWith]
  · norm_num [corrAcqInfoFromFile, corrDeltas, npMedian, List.insertionSort,
      List.orderedInsert]

/-- Claim C5 (evaluation at the failing input): for the weather file
`20221106.h5` inside the acquisition `20221101T000000Z_chime_weather` — the
layout of the repository's own test data — the code derives the date from
the first eight characters of the whole relative path, i.e. from the
acquisition directory, producing date `2022-11-01` (stored as the string
`"2022-11-01 00:00:00"`, not `"20221106"`), `start_time` `1667260800`
(midnight of 2022-11-01, not of 2022-11-06 whose midnight is `1667692800`)
and `finish_time` `1667347199`. -/
theorem c5_weather_wrong_source_of_date :
    weatherSetInfo "20221101T000000Z_chime_weather/20221106.h5" =
      some { start_time := 1667260800,
             finish_time := 1667347199,
             date := ⟨2022, 11, 1, 0, 0, 0⟩ }
    ∧ pyDateTimeStr ⟨2022, 11, 1, 0, 0, 0⟩ = "2022-11-01 00:00:00"
    ∧ timegm ⟨2022, 11, 6, 0, 0, 0⟩ = 1667692800 := by
  refine ⟨?_, by decide, by decide⟩
  decide

/-- Claim C3: metadata is created at most once per item: the callback adds
an acquisition info record only when alpenhorn reports the `ArchiveAcq` as
newly created (`acq` argument not `None`) and a file info record only when
the `ArchiveFile` is newly created; a call with both arguments `None` — a
re-import of an existing file — leaves the whole state, in particular every
info-record list and its length, unchanged. -/
theorem c3_store_info_at_most_once (d : ImportData) (s : ImportDbState) :
    store_info none none d s = some s
    ∧ (∀ f s2, store_info f none d s = some s2 → s2.acq_infos = s.acq_infos)
    ∧ (∀ a s2, store_info none a d s = some s2 → s2.file_infos = s.file_infos) := by
  refine ⟨rfl, fun f s2 h => ?_, fun a s2 h => ?_⟩
  · have h2 : storeInfoFilePhase f d s = some s2 := h
    exact (storeInfoFilePhase_acq_frame f d s s2 h2).1
  · unfold store_info at h
    rcases ha : storeInfoAcqPhase a d s with _ | s1 <;> rw [ha] at h
    · simp at h
    · have h2 : storeInfoFilePhase none d s1 = some s2 := h
      have e1 : s2 = s1 := by
        unfold storeInfoFilePhase at h2
        simp only [Option.some.injEq] at h2
        rw [h2]
      rw [e1]
      exact (storeInfoAcqPhase_file_frame a d s s1 ha).1

/-- A concrete `ImportData` as produced by a successful corr detection. -/
def importDataC : ImportData :=
  ⟨⟨⟨2022, 11, 6, 0, 0, 0⟩, ⟨"chime"⟩, ⟨"corr", some "CorrAcqInfo"⟩⟩,
    ⟨"corr", some "CorrFileInfo", some "corrpat"⟩, []⟩

/-- A concrete database state with one acquisition and one file row, both
with NULL `type`/`inst`. -/
def dbStateC : ImportDbState :=
  { acqs := [⟨1, "20221106T000000Z_chime_corr", none, none⟩],
    files := [⟨1, "00000000_0000.h5", 1, none⟩],
    acq_infos := [],
    file_infos := [] }

/-- Witness for C3: re-invoking the callback for an already-existing file
and acquisition (both arguments `None`) returns the state unchanged. -/
theorem c3_store_info_at_most_once_witness :
    store_info none none importDataC dbStateC = some dbStateC :=
  (c3_store_info_at_most_once importDataC dbStateC).1

/-- After rewriting every row of id `aid` to `row2` (with `row2.id = aid`),
re-fetching by id returns `row2`, provided a row with that id was found. -/
theorem find_after_update (l : List AcqRow) (aid : Nat) (row2 r0 : AcqRow)
    (h2 : (row2.id == aid) = true)
    (h : l.find? (fun r => r.id == aid) = some r0) :
    (l.map (fun r => if r.id == aid then row2 else r)).find?
      (fun r => r.id == aid) = some row2 := by
  induction l with
  | nil => simp at h
  | cons a rest ih =>
    by_cases hc : (a.id == aid) = true
    · rw [List.map_cons, if_pos hc,
        List.find?_cons_of_pos (p := fun r : AcqRow => r.id == aid) _ h2]
    · rw [List.find?_cons_of_neg _ (by simpa using hc)] at h
      rw [List.map_cons, if_neg hc, List.find?_cons_of_neg _ (by simpa using hc)]
      exact ih h

/-- Claim C10: an acquisition processed as newly created by the post-import
callback ends with non-null `type` and `inst`: after `store_info` runs with
a new acquisition id, re-fetching that row yields the resolved `AcqType` and
`ArchiveInst` from the classification data (both columns are nullable in the
schema, but this path always fills them). -/
theorem c10_new_acq_gets_type_and_inst (f : Option Nat) (aid : Nat)
    (d : ImportData) (s s2 : ImportDbState)
    (h : store_info f (some aid) d s = some s2) :
    (s2.acqs.find? (fun r => r.id == aid)).map (fun r => (r.type, r.inst)) =
      some (some d.acq.acqtype, some d.acq.acqinst) := by
  unfold store_info at h
  rcases ha : storeInfoAcqPhase (some aid) d s with _ | s1 <;> rw [ha] at h
  · simp at h
  · have hfp : storeInfoFilePhase f d s1 = some s2 := h
    have hacqs : s2.acqs = s1.acqs := (storeInfoFilePhase_acq_frame f d s1 s2 hfp).2
    have ha2 : storeInfoAcqPhaseSome aid d s = some s1 := ha
    unfold storeInfoAcqPhaseSome at ha2
    rcases hfind : s.acqs.find? (fun r => r.id == aid) with _ | row <;>
      rw [hfind] at ha2
    · simp at ha2
    · simp only [Option.some.injEq] at ha2
      have hrowid : (row.id == aid) = true := by
        have := List.find?_some hfind
        simpa using this
      have hfound := find_after_update s.acqs aid
        { row with type := some d.acq.acqtype, inst := some d.acq.acqinst }
        row (by simpa using hrowid) hfind
      rw [hacqs, ← ha2]
      simp only []
      rw [hfound]
      rfl

/-- The state produced by running the callback on `dbStateC` with a newly
created acquisition (id 1) and no new file. -/
def dbStateAfterC : ImportDbState :=
  { acqs := [⟨1, "20221106T000000Z_chime_corr",
      some ⟨"corr", some "CorrAcqInfo"⟩, some ⟨"chime"⟩⟩],
    files := [⟨1, "00000000_0000.h5", 1, none⟩],
    acq_infos := [⟨1, [("acqtime", PyVal.dt 2022 11 6 0 0 0)]⟩],
    file_infos := [] }

/-- Witness for C10 at a concrete state: the processed acquisition row ends
with its `type` and `inst` filled in. -/
theorem c10_new_acq_gets_type_and_inst_witness :
    (dbStateAfterC.acqs.find? (fun r => r.id == 1)).map
        (fun r => (r.type, r.inst)) =
      some (some importDataC.acq.acqtype, some importDataC.acq.acqinst) :=
  c10_new_acq_gets_type_and_inst none 1 importDataC dbStateC dbStateAfterC
    (by decide)

/-- The pattern loop returns the first file type (in the order of the
allowed-type list) whose non-null pattern matches, together with the match's
named groups; everything before it either has a null pattern or fails. -/
theorem fileTypeSearch_first (rm : ReMatch) (fname : String) :
    ∀ (l : List FileTypeRow) (ft : FileTypeRow) (m : List (String × String)),
      fileTypeSearch rm fname l = some (ft, m) →
      ∃ i : Nat, l[i]? = some ft
        ∧ (∃ p, ft.pattern = some p ∧ rm p fname = some m)
        ∧ ∀ j : Nat, j < i → ∀ ftj : FileTypeRow, l[j]? = some ftj →
            ∀ p, ftj.pattern = some p → rm p fname = none := by
  intro l
  induction l with
  | nil => intro ft m h; simp [fileTypeSearch] at h
  | cons ft0 rest ih =>
    intro ft m h
    rcases hp : ft0.pattern with _ | p
    · simp only [fileTypeSearch, hp] at h
      rcases ih ft m h with ⟨i, hi, hmatch, hbefore⟩
      refine ⟨i + 1, by rw [List.getElem?_cons_succ]; exact hi, hmatch, ?_⟩
      intro j hj ftj hftj q hq
      rcases j with _ | j2
      · simp only [List.getElem?_cons_zero, Option.some.injEq] at hftj
        rw [← hftj, hp] at hq
        cases hq
      · rw [List.getElem?_cons_succ] at hftj
        exact hbefore j2 (by omega) ftj hftj q hq
    · rcases hr : rm p fname with _ | m0
      · simp only [fileTypeSearch, hp, hr] at h
        rcases ih ft m h with ⟨i, hi, hmatch, hbefore⟩
        refine ⟨i + 1, by rw [List.getElem?_cons_succ]; exact hi, hmatch, ?_⟩
        intro j hj ftj hftj q hq
        rcases j with _ | j2
        · simp only [List.getElem?_cons_zero, Option.some.injEq] at hftj
          rw [← hftj, hp] at hq
          cases hq
          exact hr
        · rw [List.getElem?_cons_succ] at hftj
          exact hbefore j2 (by omega) ftj hftj q hq
      · simp only [fileTypeSearch, hp, hr, Option.some.injEq, Prod.mk.injEq] at h
        refine ⟨0, by simp [← h.1], ⟨p, by rw [← h.1]; exact hp, by rw [← h.2]; exact hr⟩,
          fun j hj => by omega⟩

/-- When no allowed file type has a matching non-null pattern, the loop falls
through to its `else` clause. -/
theorem fileTypeSearch_no_match (rm : ReMatch) (fname : String) :
    ∀ (l : List FileTypeRow),
      (∀ ft ∈ l, ∀ p, ft.pattern = some p → rm p fname = none) →
      fileTypeSearch rm fname l = none := by
  intro l
  induction l with
  | nil => intro h; rfl
  | cons ft0 rest ih =>
    intro h
    rcases hp : ft0.pattern with _ | p
    · simp only [fileTypeSearch, hp]
      exact ih (fun ft hft q hq => h ft (List.mem_cons_of_mem _ hft) q hq)
    · have hr : rm p fname = none := h ft0 (List.mem_cons_self ft0 rest) p hp
      simp only [fileTypeSearch, hp, hr]
      exact ih (fun ft hft q hq => h ft (List.mem_cons_of_mem _ hft) q hq)

/-- Claim C2: after a successful acquisition parse, classification walks the
file types allowed for the resolved `AcqType` in catalog-registration order;
a null-pattern type is never selected, the first type with a matching
non-null pattern wins (so of two matching types the earlier-registered one is
chosen), and if no candidate matches, classification is NoMatch. -/
theorem c2_first_pattern_wins (rm : ReMatch) (fname : String)
    (l : List FileTypeRow) :
    (∀ ft m, fileTypeSearch rm fname l = some (ft, m) →
      ∃ i : Nat, l[i]? = some ft
        ∧ (∃ p, ft.pattern = some p ∧ rm p fname = some m)
        ∧ ∀ j : Nat, j < i → ∀ ftj : FileTypeRow, l[j]? = some ftj →
            ∀ p, ftj.pattern = some p → rm p fname = none)
    ∧ ((∀ ft ∈ l, ∀ p, ft.pattern = some p → rm p fname = none) →
      fileTypeSearch rm fname l = none)
    ∧ (∀ cat (path : RelPath) d2, parse_acq cat path.parent = some d2 →
      import_detect cat rm path =
        (fileTypeSearch rm path.name (fileTypesFor cat d2.acqtype)).map
          (fun r => (path.parent, ⟨d2, r.1, r.2⟩))) := by
  refine ⟨fileTypeSearch_first rm fname l, fileTypeSearch_no_match rm fname l,
    fun cat path d2 h => ?_⟩
  simp only [import_detect, h]
  rcases hs : fileTypeSearch rm path.name (fileTypesFor cat d2.acqtype) with _ | r
  · rfl
  · rfl

/-- Witness for C2: a file name matching no allowed pattern yields NoMatch
(the null-pattern `log` type in the list is skipped rather than matched). -/
theorem c2_first_pattern_wins_witness :
    fileTypeSearch rmCorr "junk.h5"
      [⟨"corr", some "CorrFileInfo", some "corrpat"⟩, ⟨"log", none, none⟩] =
      none :=
  (c2_first_pattern_wins rmCorr "junk.h5"
    [⟨"corr", some "CorrFileInfo", some "corrpat"⟩, ⟨"log", none, none⟩]).2.1
    (by
      intro ft hft p hp
      have hm : ft = ⟨"corr", some "CorrFileInfo", some "corrpat"⟩ ∨
          ft = ⟨"log", none, none⟩ := by simpa using hft
      rcases hm with h1 | h1 <;> subst h1
      · injection hp with hpp
        rw [← hpp]
        decide
      · exact Option.noConfusion hp)

/-- A failed acquisition parse makes `import_detect` return the `(None,
None)` sentinel. -/
theorem import_detect_none_of_parse_none (cat : Catalog) (rm : ReMatch)
    (path : RelPath) (h : parse_acq cat path.parent = none) :
    import_detect cat rm path = none := by
  simp only [import_detect, h]

/-- Claim C1 (amended): `import_detect` returns the NoMatch sentinel
`(None, None)` — and raises no exception — for every path whose acquisition
segment does not split into exactly three underscore-delimited parts, or
whose type part is not a registered `AcqType` name, or whose instrument part
is not a registered `ArchiveInst` name, or whose timestamp part is rejected
by `strptime("%Y%m%dT%H%M%SZ")` (which also accepts some strings that are
not of the exact sixteen-character form `YYYYMMDDTHHMMSSZ`, such as
numeric fields with a dropped leading zero — see the counterexample). -/
theorem c1_bad_acq_segment_no_match (cat : Catalog) (rm : ReMatch)
    (path : RelPath) :
    ((pySplit path.parent).length ≠ 3 → import_detect cat rm path = none)
    ∧ (∀ q0 q1 q2, pySplit path.parent = [q0, q1, q2] →
        (cat.acqtypes.find? (fun r => r.name == q2) = none
          ∨ cat.insts.find? (fun r => r.name == q1) = none
          ∨ strptimeAcqFormat q0 = none) →
        import_detect cat rm path = none) := by
  constructor
  · intro hlen
    refine import_detect_none_of_parse_none cat rm path ?_
    unfold parse_acq
    rcases hs : pySplit path.parent with _ | ⟨a, _ | ⟨b, _ | ⟨c, _ | ⟨e, tl⟩⟩⟩⟩
    · rfl
    · rfl
    · rfl
    · rw [hs] at hlen
      simp at hlen
    · rfl
  · intro q0 q1 q2 hs hdisj
    refine import_detect_none_of_parse_none cat rm path ?_
    rcases hdisj with h1 | h2 | h3
    · simp only [parse_acq, hs, h1]
    · simp only [parse_acq, hs]
      rcases hat : cat.acqtypes.find? (fun r => r.name == q2) with _ | at2
      · simp only [hat]
      · simp only [hat, h2]
    · simp only [parse_acq, hs]
      rcases hat : cat.acqtypes.find? (fun r => r.name == q2) with _ | at2
      · simp only [hat]
      · rcases hin : cat.insts.find? (fun r => r.name == q1) with _ | in2
        · simp only [hat, hin]
        · simp only [hat, hin, h3]

/-- Witness for C1 (amended), covering each failure mode against the
concrete catalog: a one-part acquisition segment, an unregistered type, an
unregistered instrument, and a timestamp rejected by the parser (an invalid
calendar date) all produce the NoMatch sentinel. -/
theorem c1_bad_acq_segment_no_match_witness :
    import_detect catC rmCorr ⟨"badacq", "00000000_0000.h5"⟩ = none
    ∧ import_detect catC rmCorr
        ⟨"20221106T000000Z_chime_nosuchtype", "00000000_0000.h5"⟩ = none
    ∧ import_detect catC rmCorr
        ⟨"20221106T000000Z_noinst_corr", "00000000_0000.h5"⟩ = none
    ∧ import_detect catC rmCorr
        ⟨"20220230T000000Z_chime_corr", "00000000_0000.h5"⟩ = none :=
  ⟨(c1_bad_acq_segment_no_match catC rmCorr ⟨"badacq", "00000000_0000.h5"⟩).1
      (by decide),
   (c1_bad_acq_segment_no_match catC rmCorr
      ⟨"20221106T000000Z_chime_nosuchtype", "00000000_0000.h5"⟩).2
      "20221106T000000Z" "chime" "nosuchtype" (by decide) (Or.inl (by decide)),
   (c1_bad_acq_segment_no_match catC rmCorr
      ⟨"20221106T000000Z_noinst_corr", "00000000_0000.h5"⟩).2
      "20221106T000000Z" "noinst" "corr" (by decide)
      (Or.inr (Or.inl (by decide))),
   (c1_bad_acq_segment_no_match catC rmCorr
      ⟨"20220230T000000Z_chime_corr", "00000000_0000.h5"⟩).2
      "20220230T000000Z" "chime" "corr" (by decide)
      (Or.inr (Or.inr (by decide)))⟩

/-- Counterexample to C1 as stated: the timestamp `2022116T000000Z` is not
of the exact form `YYYYMMDDTHHMMSSZ` (it is fifteen characters, with a
one-digit day), yet CPython `strptime` accepts it as 2022-11-06, so
`import_detect` classifies the path successfully instead of returning the
NoMatch sentinel. -/
theorem c1_exact_form_counterexample :
    specExactTimestampForm "2022116T000000Z" = false
    ∧ import_detect catC rmCorr
        ⟨"2022116T000000Z_chime_corr", "00000000_0000.h5"⟩ =
      some ("2022116T000000Z_chime_corr",
        ⟨⟨⟨2022, 11, 6, 0, 0, 0⟩, ⟨"chime"⟩, ⟨"corr", some "CorrAcqInfo"⟩⟩,
          ⟨"corr", some "CorrFileInfo", some "corrpat"⟩, []⟩) := by
  constructor
  · decide
  · decide

/-! ### Helper lemmas for `update_types` -/

/-- One upsert never deletes a row: a row with the same name survives. -/
theorem upsert_keeps_name (row : TypeRow) (tbl : List TypeRow) (r : TypeRow)
    (h : r ∈ tbl) : ∃ r2 ∈ upsertType row tbl, r2.name = r.name := by
  unfold upsertType
  by_cases hany : tbl.any (fun x => x.name == row.name) = true
  · rw [if_pos hany]
    refine ⟨if r.name == row.name then row else r,
      List.mem_map_of_mem _ h, ?_⟩
    by_cases hn : (r.name == row.name) = true
    · rw [if_pos hn, (eq_of_beq hn)]
    · rw [if_neg hn]
  · rw [if_neg hany]
    exact ⟨r, List.mem_append_left _ h, rfl⟩

/-- The seeding fold never deletes a row: a row with the same name survives. -/
theorem foldl_upsert_keeps_name (seeds : List TypeRow) :
    ∀ (tbl : List TypeRow) (r : TypeRow), r ∈ tbl →
      ∃ r2 ∈ seeds.foldl (fun t q => upsertType q t) tbl, r2.name = r.name := by
  induction seeds with
  | nil => exact fun tbl r h => ⟨r, h, rfl⟩
  | cons s rest ih =>
    intro tbl r h
    rcases upsert_keeps_name s tbl r h with ⟨r2, h2, hname2⟩
    rcases ih (upsertType s tbl) r2 h2 with ⟨r3, h3, hname3⟩
    exact ⟨r3, by simpa using h3, by rw [hname3, hname2]⟩

/-- Rewriting rows named `row.name` to `row` does not change a lookup for a
different name. -/
theorem find_map_upsert_ne (row : TypeRow) (n : String)
    (h : (row.name == n) = false) :
    ∀ tbl : List TypeRow,
      (tbl.map (fun r => if r.name == row.name then row else r)).find?
          (fun r => r.name == n) =
        tbl.find? (fun r => r.name == n) := by
  intro tbl
  induction tbl with
  | nil => rfl
  | cons e rest ih =>
    by_cases he : (e.name == row.name) = true
    · have hen : (e.name == n) = false := by
        rw [eq_of_beq he]
        exact h
      rw [List.map_cons, if_pos he,
        List.find?_cons_of_neg _ (by simpa using h),
        List.find?_cons_of_neg _ (by simpa using hen)]
      exact ih
    · rw [List.map_cons, if_neg he]
      by_cases hen : (e.name == n) = true
      · rw [List.find?_cons_of_pos (p := fun r : TypeRow => r.name == n) _ hen,
          List.find?_cons_of_pos (p := fun r : TypeRow => r.name == n) _ hen]
      · rw [List.find?_cons_of_neg _ (by simpa using hen),
          List.find?_cons_of_neg _ (by simpa using hen)]
        exact ih

/-- An upsert for one name does not change a lookup for a different name. -/
theorem find_upsert_ne (row : TypeRow) (n : String)
    (h : (row.name == n) = false) (tbl : List TypeRow) :
    (upsertType row tbl).find? (fun r => r.name == n) =
      tbl.find? (fun r => r.name == n) := by
  unfold upsertType
  by_cases hany : tbl.any (fun x => x.name == row.name) = true
  · rw [if_pos hany]
    exact find_map_upsert_ne row n h tbl
  · rw [if_neg hany, List.find?_append]
    rcases hf : tbl.find? (fun r => r.name == n) with _ | r2
    · have hne : row.name ≠ n := by simpa using h
      rw [hf]
      simp [List.find?_cons, hne]
    · rw [hf]
      rfl

/-- After rewriting rows named `row.name` to `row`, the lookup for that name
returns `row`, provided such a row existed. -/
theorem find_map_upsert_eq (row : TypeRow) :
    ∀ tbl : List TypeRow,
      tbl.any (fun x => x.name == row.name) = true →
      (tbl.map (fun r => if r.name == row.name then row else r)).find?
          (fun r => r.name == row.name) = some row := by
  intro tbl
  induction tbl with
  | nil => intro h; simp at h
  | cons e rest ih =>
    intro hany
    by_cases he : (e.name == row.name) = true
    · rw [List.map_cons, if_pos he,
        List.find?_cons_of_pos (p := fun r : TypeRow => r.name == row.name) _
          (beq_self_eq_true row.name)]
    · rw [List.map_cons, if_neg he,
        List.find?_cons_of_neg _ (by simpa using he)]
      refine ih ?_
      rw [List.any_cons] at hany
      simpa [he] using hany

/-- An upsert makes the lookup for its own name return the seeded row. -/
theorem find_upsert_eq (row : TypeRow) (tbl : List TypeRow) :
    (upsertType row tbl).find? (fun r => r.name == row.name) = some row := by
  unfold upsertType
  by_cases hany : tbl.any (fun x => x.name == row.name) = true
  · rw [if_pos hany]
    exact find_map_upsert_eq row tbl hany
  · rw [if_neg hany, List.find?_append]
    have hany2 : tbl.any (fun x => x.name == row.name) = false := by
      simpa using hany
    have hnone : tbl.find? (fun r => r.name == row.name) = none := by
      rw [List.find?_eq_none]
      intro x hx
      exact List.any_eq_false.mp hany2 x hx
    rw [hnone]
    simp [List.find?_cons, beq_self_eq_true row.name]

theorem seedAcq_find_corr (tbl : List TypeRow) :
    (seedAcqTable tbl).find? (fun r => r.name == "corr") =
      some (typedict 1 "corr" "Traditionally hand-tooled correlation products from a correlator." (some "CorrAcqInfo") 0) := by
  simp only [seedAcqTable, acqTypeSeed, List.foldl_cons, List.foldl_nil]
  rw [find_upsert_ne _ _ (by decide), find_upsert_ne _ _ (by decide), find_upsert_ne _ _ (by decide), find_upsert_ne _ _ (by decide), find_upsert_ne _ _ (by decide), find_upsert_ne _ _ (by decide), find_upsert_ne _ _ (by decide), find_upsert_ne _ _ (by decide)]
  exact find_upsert_eq (typedict 1 "corr" "Traditionally hand-tooled correlation products from a correlator." (some "CorrAcqInfo") 0) _

theorem seedAcq_find_rawadc (tbl : List TypeRow) :
    (seedAcqTable tbl).find? (fun r => r.name == "rawadc") =
      some (typedict 3 "rawadc" "Raw ADC data taken for testing the status of a correlator." (some "RawadcAcqInfo") 0) := by
  simp only [seedAcqTable, acqTypeSeed, List.foldl_cons, List.foldl_nil]
  rw [find_upsert_ne _ _ (by decide), find_upsert_ne _ _ (by decide), find_upsert_ne _ _ (by decide), find_upsert_ne _ _ (by decide), find_upsert_ne _ _ (by decide), find_upsert_ne _ _ (by decide)]
  exact find_upsert_eq (typedict 3 "rawadc" "Raw ADC data taken for testing the status of a correlator." (some "RawadcAcqInfo") 0) _

theorem seedAcq_find_weather (tbl : List TypeRow) :
    (seedAcqTable tbl).find? (fun r => r.name == "weather") =
      some (typedict 5 "weather" "Weather data scraped from the wview archive provided by DRAO." (some "WeatherAcqDetect") 0) := by
  simp only [seedAcqTable, acqTypeSeed, List.foldl_cons, List.foldl_nil]
  rw [find_upsert_ne _ _ (by decide), find_upsert_ne _ _ (by decide), find_upsert_ne _ _ (by decide), find_upsert_ne _ _ (by decide), find_upsert_ne _ _ (by decide)]
  exact find_upsert_eq (typedict 5 "weather" "Weather data scraped from the wview archive provided by DRAO." (some "WeatherAcqDetect") 0) _

theorem seedAcq_find_digitalgain (tbl : List TypeRow) :
    (seedAcqTable tbl).find? (fun r => r.name == "digitalgain") =
      some (typedict 7 "digitalgain" "FPGA digital gains from the F-Engine." (some "DigitalGainAcqDetect") 0) := by
  simp only [seedAcqTable, acqTypeSeed, List.foldl_cons, List.foldl_nil]
  rw [find_upsert_ne _ _ (by decide), find_upsert_ne _ _ (by decide), find_upsert_ne _ _ (by decide)]
  exact find_upsert_eq (typedict 7 "digitalgain" "FPGA digital gains from the F-Engine." (some "DigitalGainAcqDetect") 0) _

theorem seedAcq_find_gain (tbl : List TypeRow) :
    (seedAcqTable tbl).find? (fun r => r.name == "gain") =
      some (typedict 8 "gain" "Complex gains from the calibration broker." (some "CalibrationGainAcqDetect") 0) := by
  simp only [seedAcqTable, acqTypeSeed, List.foldl_cons, List.foldl_nil]
  rw [find_upsert_ne _ _ (by decide), find_upsert_ne _ _ (by decide)]
  exact find_upsert_eq (typedict 8 "gain" "Complex gains from the calibration broker." (some "CalibrationGainAcqDetect") 0) _

theorem seedAcq_find_flaginput (tbl : List TypeRow) :
    (seedAcqTable tbl).find? (fun r => r.name == "flaginput") =
      some (typedict 9 "flaginput" "Good correlator input flags from the flagging broker." (some "FlagInputAcqDetect") 0) := by
  simp only [seedAcqTable, acqTypeSeed, List.foldl_cons, List.foldl_nil]
  rw [find_upsert_ne _ _ (by decide)]
  exact find_upsert_eq (typedict 9 "flaginput" "Good correlator input flags from the flagging broker." (some "FlagInputAcqDetect") 0) _

theorem seedAcq_find_hfb (tbl : List TypeRow) :
    (seedAcqTable tbl).find? (fun r => r.name == "hfb") =
      some (typedict 11 "hfb" "21cm absorber (Hyper Fine Beam) data taken from a correlator." (some "HFBAcqInfo") 0) := by
  simp only [seedAcqTable, acqTypeSeed, List.foldl_cons, List.foldl_nil]
  exact find_upsert_eq (typedict 11 "hfb" "21cm absorber (Hyper Fine Beam) data taken from a correlator." (some "HFBAcqInfo") 0) _

theorem seedFile_find_corr (tbl : List TypeRow) :
    (seedFileTable tbl).find? (fun r => r.name == "corr") =
      some (typedict 1 "corr" "Traditionally hand-tooled correlation products from a correlator." (some "CorrFileInfo") 0) := by
  simp only [seedFileTable, fileTypeSeed, List.foldl_cons, List.foldl_nil]
  rw [find_upsert_ne _ _ (by decide), find_upsert_ne _ _ (by decide), find_upsert_ne _ _ (by decide), find_upsert_ne _ _ (by decide), find_upsert_ne _ _ (by decide), find_upsert_ne _ _ (by decide), find_upsert_ne _ _ (by decide), find_upsert_ne _ _ (by decide), find_upsert_ne _ _ (by decide)]
  exact find_upsert_eq (typedict 1 "corr" "Traditionally hand-tooled correlation products from a correlator." (some "CorrFileInfo") 0) _

theorem seedFile_find_rawadc (tbl : List TypeRow) :
    (seedFileTable tbl).find? (fun r => r.name == "rawadc") =
      some (typedict 5 "rawadc" "Raw ADC data taken for testing the status of a correlator." (some "RawadcFileInfo") 0) := by
  simp only [seedFileTable, fileTypeSeed, List.foldl_cons, List.foldl_nil]
  rw [find_upsert_ne _ _ (by decide), find_upsert_ne _ _ (by decide), find_upsert_ne _ _ (by decide), find_upsert_ne _ _ (by decide), find_upsert_ne _ _ (by decide)]
  exact find_upsert_eq (typedict 5 "rawadc" "Raw ADC data taken for testing the status of a correlator." (some "RawadcFileInfo") 0) _

theorem seedFile_find_weather (tbl : List TypeRow) :
    (seedFileTable tbl).find? (fun r => r.name == "weather") =
      some (typedict 10 "weather" "Weather data scraped from the wview archive provided by DRAO." (some "WeatherFileInfo") 0) := by
  simp only [seedFileTable, fileTypeSeed, List.foldl_cons, List.foldl_nil]
  rw [find_upsert_ne _ _ (by decide), find_upsert_ne _ _ (by decide), find_upsert_ne _ _ (by decide)]
  exact find_upsert_eq (typedict 10 "weather" "Weather data scraped from the wview archive provided by DRAO." (some "WeatherFileInfo") 0) _

theorem seedFile_find_calibration (tbl : List TypeRow) :
    (seedFileTable tbl).find? (fun r => r.name == "calibration") =
      some (typedict 12 "calibration" "Calibration data products." (some "=cal_info_class") 0) := by
  simp only [seedFileTable, fileTypeSeed, List.foldl_cons, List.foldl_nil]
  rw [find_upsert_ne _ _ (by decide)]
  exact find_upsert_eq (typedict 12 "calibration" "Calibration data products." (some "=cal_info_class") 0) _

theorem seedFile_find_hfb (tbl : List TypeRow) :
    (seedFileTable tbl).find? (fun r => r.name == "hfb") =
      some (typedict 14 "hfb" "21cm absorber (Hyper Fine Beam) data taken from a correlator." (some "HFBFileInfo") 0) := by
  simp only [seedFileTable, fileTypeSeed, List.foldl_cons, List.foldl_nil]
  exact find_upsert_eq (typedict 14 "hfb" "21cm absorber (Hyper Fine Beam) data taken from a correlator." (some "HFBFileInfo") 0) _

/-- One mapping iteration leaves the type tables alone and keeps every
junction row that is not an "extra" row of this iteration's acqtype. -/
theorem mappingStep_mem (db : TypeDb) (an fn : String) (db2 : TypeDb)
    (a f : TypeRow)
    (ha : db.acqtypes.find? (fun r => r.name == an) = some a)
    (hf : db.filetypes.find? (fun r => r.name == fn) = some f)
    (h : mappingStep db (an, fn) = some db2) :
    db2.acqtypes = db.acqtypes ∧ db2.filetypes = db.filetypes ∧
      ∀ p ∈ db.pairs, ¬(p.acq_type = a.id ∧ p.file_type ≠ f.id) →
        p ∈ db2.pairs := by
  unfold mappingStep at h
  rw [ha, hf] at h
  simp only [Option.some.injEq] at h
  rw [← h]
  refine ⟨rfl, rfl, fun p hp hcond => ?_⟩
  have hfilter : p ∈ db.pairs.filter
      (fun q => !(q.acq_type == a.id && !(q.file_type == f.id))) := by
    rw [List.mem_filter]
    refine ⟨hp, ?_⟩
    have hcond2 : p.acq_type = a.id → p.file_type = f.id := by
      intro hq
      by_contra hcf
      exact hcond ⟨hq, hcf⟩
    have hor : ¬p.acq_type = a.id ∨ p.file_type = f.id := by
      rcases Decidable.em (p.acq_type = a.id) with hq | hq
      · exact Or.inr (hcond2 hq)
      · exact Or.inl hq
    simpa using hor
  by_cases hin : (db.pairs.filter
      (fun q => !(q.acq_type == a.id && !(q.file_type == f.id)))).any
        (fun q => q.acq_type == a.id && q.file_type == f.id) = true
  · simp only [hin, if_pos rfl]
    exact hfilter
  · simp only [hin]
    simp only [Bool.false_eq_true, if_false]
    exact List.mem_append_left _ hfilter

/-- The (AcqType id, FileType id) pairs seeded by the mapping loop of
`update_types`: corr, rawadc, weather, digitalgain, gain, flaginput, hfb. -/
def seededMappingIds : List (Nat × Nat) :=
  [(1, 1), (3, 5), (5, 10), (7, 12), (8, 12), (9, 12), (11, 14)]

/-- A successful mapping iteration implies both name lookups succeeded, the
type tables are untouched, and every non-extra junction row survives. -/
theorem mappingStep_general (db : TypeDb) (an fn : String) (s1 : TypeDb)
    (h : mappingStep db (an, fn) = some s1) :
    s1.acqtypes = db.acqtypes ∧ s1.filetypes = db.filetypes ∧
      ∀ p ∈ db.pairs,
        (∀ a f, db.acqtypes.find? (fun r => r.name == an) = some a →
          db.filetypes.find? (fun r => r.name == fn) = some f →
          ¬(p.acq_type = a.id ∧ p.file_type ≠ f.id)) →
        p ∈ s1.pairs := by
  rcases ha : db.acqtypes.find? (fun r => r.name == an) with _ | a
  · exfalso
    unfold mappingStep at h
    rw [ha] at h
    simp at h
  · rcases hf : db.filetypes.find? (fun r => r.name == fn) with _ | f
    · exfalso
      unfold mappingStep at h
      rw [ha, hf] at h
      simp at h
    · have k := mappingStep_mem db an fn s1 a f ha hf h
      exact ⟨k.1, k.2.1, fun p hp hcond => k.2.2 p hp (hcond a f ha hf)⟩

/-- Walking the whole mapping fold: the type tables are untouched and a
junction row that is not an extra row of any successful iteration survives
to the end. -/
theorem foldlM_mappingStep_preserve :
    ∀ (steps : List (String × String)) (dbA db2 : TypeDb),
      List.foldlM mappingStep dbA steps = some db2 →
      db2.acqtypes = dbA.acqtypes ∧ db2.filetypes = dbA.filetypes ∧
        ∀ p ∈ dbA.pairs,
          (∀ q ∈ steps, ∀ a f,
            dbA.acqtypes.find? (fun r => r.name == q.1) = some a →
            dbA.filetypes.find? (fun r => r.name == q.2) = some f →
            ¬(p.acq_type = a.id ∧ p.file_type ≠ f.id)) →
          p ∈ db2.pairs := by
  intro steps
  induction steps with
  | nil =>
    intro dbA db2 h
    simp only [List.foldlM_nil] at h
    have h2 : dbA = db2 := by simpa using h
    rw [← h2]
    exact ⟨rfl, rfl, fun p hp _ => hp⟩
  | cons q rest ih =>
    intro dbA db2 h
    simp only [List.foldlM_cons] at h
    rcases hm : mappingStep dbA q with _ | s1 <;> rw [hm] at h
    · simp at h
    · have h2 : List.foldlM mappingStep s1 rest = some db2 := h
      rcases q with ⟨an, fn⟩
      have k := mappingStep_general dbA an fn s1 hm
      have krest := ih s1 db2 h2
      refine ⟨by rw [krest.1, k.1], by rw [krest.2.1, k.2.1], ?_⟩
      intro p hp hall
      have hp1 : p ∈ s1.pairs :=
        k.2.2 p hp (fun a f ha hf =>
          hall (an, fn) (List.mem_cons_self _ _) a f ha hf)
      refine krest.2.2 p hp1 ?_
      intro q2 hq2 a f ha hf
      refine hall q2 (List.mem_cons_of_mem _ hq2) a f ?_ ?_
      · rw [← k.1]
        exact ha
      · rw [← k.2.1]
        exact hf

/-- `seedAcqTable` never deletes a row. -/
theorem seedAcqTable_keeps_name (tbl : List TypeRow) (r : TypeRow)
    (h : r ∈ tbl) : ∃ r2 ∈ seedAcqTable tbl, r2.name = r.name := by
  unfold seedAcqTable
  exact foldl_upsert_keeps_name acqTypeSeed tbl r h

/-- `seedFileTable` never deletes a row. -/
theorem seedFileTable_keeps_name (tbl : List TypeRow) (r : TypeRow)
    (h : r ∈ tbl) : ∃ r2 ∈ seedFileTable tbl, r2.name = r.name := by
  unfold seedFileTable
  exact foldl_upsert_keeps_name fileTypeSeed tbl r h

seal seedAcqTable seedFileTable

/-- Claim C9 (amended): `update_types` is an upsert keyed by name that never
deletes `AcqType` or `FileType` rows — every pre-existing row still has a row
with its name afterwards — but it does delete junction rows: a pre-existing
allowed `(AcqType, FileType)` pair survives provided it is not an "extra"
pair of one of the seven seeded mappings (same acqtype id, different
filetype id), which the mapping loop explicitly deletes. -/
theorem c9_update_types_upsert_amended (db db2 : TypeDb)
    (h : update_types db = some db2) :
    (∀ r ∈ db.acqtypes, ∃ r2 ∈ db2.acqtypes, r2.name = r.name)
    ∧ (∀ r ∈ db.filetypes, ∃ r2 ∈ db2.filetypes, r2.name = r.name)
    ∧ (∀ p ∈ db.pairs,
        (∀ q ∈ seededMappingIds, ¬(p.acq_type = q.1 ∧ p.file_type ≠ q.2)) →
        p ∈ db2.pairs) := by
  unfold update_types at h
  have k := foldlM_mappingStep_preserve acqFileTypeMapping _ db2 h
  have hacq : db2.acqtypes = seedAcqTable db.acqtypes := k.1
  have hfile : db2.filetypes = seedFileTable db.filetypes := k.2.1
  refine ⟨?_, ?_, ?_⟩
  · intro r hr
    rw [hacq]
    exact seedAcqTable_keeps_name db.acqtypes r hr
  · intro r hr
    rw [hfile]
    exact seedFileTable_keeps_name db.filetypes r hr
  · intro p hp hall
    refine k.2.2 p hp ?_
    intro q hq a f ha hf
    have hq7 : q = ("corr", "corr") ∨ q = ("rawadc", "rawadc") ∨
        q = ("weather", "weather") ∨ q = ("digitalgain", "calibration") ∨
        q = ("gain", "calibration") ∨ q = ("flaginput", "calibration") ∨
        q = ("hfb", "hfb") := by
      simpa [acqFileTypeMapping] using hq
    rcases hq7 with rfl | rfl | rfl | rfl | rfl | rfl | rfl
    · have ea : a = typedict 1 "corr"
          "Traditionally hand-tooled correlation products from a correlator."
          (some "CorrAcqInfo") 0 := by
        have := (seedAcq_find_corr db.acqtypes).symm.trans ha
        exact (Option.some.inj this).symm
      have ef : f = typedict 1 "corr"
          "Traditionally hand-tooled correlation products from a correlator."
          (some "CorrFileInfo") 0 := by
        have := (seedFile_find_corr db.filetypes).symm.trans hf
        exact (Option.some.inj this).symm
      rw [ea, ef]
      exact hall (1, 1) (by decide)
    · have ea : a = typedict 3 "rawadc"
          "Raw ADC data taken for testing the status of a correlator."
          (some "RawadcAcqInfo") 0 := by
        have := (seedAcq_find_rawadc db.acqtypes).symm.trans ha
        exact (Option.some.inj this).symm
      have ef : f = typedict 5 "rawadc"
          "Raw ADC data taken for testing the status of a correlator."
          (some "RawadcFileInfo") 0 := by
        have := (seedFile_find_rawadc db.filetypes).symm.trans hf
        exact (Option.some.inj this).symm
      rw [ea, ef]
      exact hall (3, 5) (by decide)
    · have ea : a = typedict 5 "weather"
          "Weather data scraped from the wview archive provided by DRAO."
          (some "WeatherAcqDetect") 0 := by
        have := (seedAcq_find_weather db.acqtypes).symm.trans ha
        exact (Option.some.inj this).symm
      have ef : f = typedict 10 "weather"
          "Weather data scraped from the wview archive provided by DRAO."
          (some "WeatherFileInfo") 0 := by
        have := (seedFile_find_weather db.filetypes).symm.trans hf
        exact (Option.some.inj this).symm
      rw [ea, ef]
      exact hall (5, 10) (by decide)
    · have ea : a = typedict 7 "digitalgain"
          "FPGA digital gains from the F-Engine."
          (some "DigitalGainAcqDetect") 0 := by
        have := (seedAcq_find_digitalgain db.acqtypes).symm.trans ha
        exact (Option.some.inj this).symm
      have ef : f = typedict 12 "calibration" "Calibration data products."
          (some "=cal_info_class") 0 := by
        have := (seedFile_find_calibration db.filetypes).symm.trans hf
        exact (Option.some.inj this).symm
      rw [ea, ef]
      exact hall (7, 12) (by decide)
    · have ea : a = typedict 8 "gain"
          "Complex gains from the calibration broker."
          (some "CalibrationGainAcqDetect") 0 := by
        have := (seedAcq_find_gain db.acqtypes).symm.trans ha
        exact (Option.some.inj this).symm
      have ef : f = typedict 12 "calibration" "Calibration data products."
          (some "=cal_info_class") 0 := by
        have := (seedFile_find_calibration db.filetypes).symm.trans hf
        exact (Option.some.inj this).symm
      rw [ea, ef]
      exact hall (8, 12) (by decide)
    · have ea : a = typedict 9 "flaginput"
          "Good correlator input flags from the flagging broker."
          (some "FlagInputAcqDetect") 0 := by
        have := (seedAcq_find_flaginput db.acqtypes).symm.trans ha
        exact (Option.some.inj this).symm
      have ef : f = typedict 12 "calibration" "Calibration data products."
          (some "=cal_info_class") 0 := by
        have := (seedFile_find_calibration db.filetypes).symm.trans hf
        exact (Option.some.inj this).symm
      rw [ea, ef]
      exact hall (9, 12) (by decide)
    · have ea : a = typedict 11 "hfb"
          "21cm absorber (Hyper Fine Beam) data taken from a correlator."
          (some "HFBAcqInfo") 0 := by
        have := (seedAcq_find_hfb db.acqtypes).symm.trans ha
        exact (Option.some.inj this).symm
      have ef : f = typedict 14 "hfb"
          "21cm absorber (Hyper Fine Beam) data taken from a correlator."
          (some "HFBFileInfo") 0 := by
        have := (seedFile_find_hfb db.filetypes).symm.trans hf
        exact (Option.some.inj this).symm
      rw [ea, ef]
      exact hall (11, 14) (by decide)

unseal seedAcqTable seedFileTable

/-- A catalog state holding a pre-existing allowed pair (corr, log) — ids
(1, 2) — that is not part of the seed data. -/
def typeDb0 : TypeDb :=
  { acqtypes := [⟨1, "corr", 0, none, "old corr row", none⟩],
    filetypes := [⟨1, "corr", 0, none, "old corr row", none⟩,
                  ⟨2, "log", 0, none, "old log row", none⟩],
    pairs := [⟨1, 2⟩] }

/-- Counterexample to C9 as stated: the pre-existing allowed pair
(corr, log) is not listed in the seed data, yet seeding deletes it — the
mapping loop for `corr` removes every junction row of that acqtype with a
different filetype. -/
theorem c9_counterexample :
    (⟨1, 2⟩ : PairRow) ∈ typeDb0.pairs
    ∧ (update_types typeDb0).map
        (fun d => decide ((⟨1, 2⟩ : PairRow) ∈ d.pairs)) = some false := by
  constructor
  · decide
  · decide

/-- A catalog state holding a pre-existing pair whose acqtype id (99) is not
one of the seeded mapping acqtypes. -/
def typeDbW : TypeDb := ⟨[], [], [⟨99, 99⟩]⟩

/-- The result of seeding `typeDbW`. -/
def typeDbW2 : TypeDb := (update_types typeDbW).getD ⟨[], [], []⟩

/-- Witness for C9 (amended): the pre-existing pair (99, 99), extra for no
seeded mapping, survives the seeding. -/
theorem c9_update_types_upsert_amended_witness :
    (⟨99, 99⟩ : PairRow) ∈ typeDbW2.pairs :=
  (c9_update_types_upsert_amended typeDbW typeDbW2 (by decide)).2.2
    ⟨99, 99⟩ (by decide) (by decide)
